import Mathlib

/-!
Shallow embedding of the Task REST API in src/main.go (Gin + MongoDB CRUD).
The HTTP/JSON layer is modelled by a small Json type; the Mongo collection
by a list of stored documents; each handler by a pure function from the
decoded request and store state to a response and a new store state.
-/

namespace TaskApi

/-- A MongoDB ObjectID, modelled as its 24-character lowercase hex string. -/
abbrev ObjectID := String

/-- The zero ObjectID, the Go zero value of primitive.ObjectID. -/
def zeroOID : ObjectID := "000000000000000000000000"

/-- Hex-digit test used by ObjectIDFromHex (hex.DecodeString accepts both cases). -/
def isHexChar (c : Char) : Bool :=
  c.isDigit || (decide (Char.ofNat 97 ≤ c) && decide (c ≤ Char.ofNat 102)) ||
    (decide (Char.ofNat 65 ≤ c) && decide (c ≤ Char.ofNat 70))

/-- Boolean well-formedness of an id path parameter: 24 bytes, all hex digits,
as checked by primitive.ObjectIDFromHex. -/
def validOIDb (s : String) : Bool :=
  s.utf8ByteSize == 24 && s.data.all isHexChar

/-- Lowercase a hex string, as hex.DecodeString plus re-encoding does. -/
def lowerHex (s : String) : String :=
  String.mk (s.data.map Char.toLower)

/-- primitive.ObjectIDFromHex: parse the id path parameter, normalising to
lowercase (hex.DecodeString then re-encoding on use). -/
def objectIDFromHex (s : String) : Except String ObjectID :=
  if validOIDb s then Except.ok (lowerHex s)
  else Except.error "the provided hex string is not a valid ObjectID"

/-- The Go struct Task: ID (json id, bson _id omitempty), Title (json and
bson title), Completed (json completed, bson completed omitempty). The
zero value has the zero ObjectID, empty title, false completed; BindJSON
leaves absent fields at their zero values. -/
structure Task where
  id : ObjectID := zeroOID
  title : String := ""
  completed : Bool := false
deriving DecidableEq, Repr

/-- A persisted document of the tasks collection. The completed field is
Option Bool because the bson tag on Completed carries omitempty: marshalling
drops the field when the value is false, so stored documents may lack it. -/
structure StoredDoc where
  id : ObjectID
  title : String
  completed : Option Bool
deriving DecidableEq, Repr

/-- The tasks collection state. -/
abbrev Store := List StoredDoc

/-- JSON values, enough for the bodies the handlers emit. -/
inductive Json where
  | str : String → Json
  | bool : Bool → Json
  | arr : List Json → Json
  | obj : List (String × Json) → Json

/-- Field lookup in a JSON object. -/
def Json.getField : Json → String → Option Json
  | Json.obj fields, k => fields.lookup k
  | _, _ => none

/-- An HTTP response: status code and JSON body. -/
structure HttpResponse where
  status : Nat
  body : Json

/-- gin JSON rendering of a Task struct via its json tags. -/
def taskToJson (t : Task) : Json :=
  Json.obj [("id", Json.str t.id), ("title", Json.str t.title),
    ("completed", Json.bool t.completed)]

/-- JSON rendering of a raw stored document (bson.M): key _id, key title,
and key completed only when the stored field exists. -/
def storedDocToJson (d : StoredDoc) : Json :=
  Json.obj (("_id", Json.str d.id) :: ("title", Json.str d.title) ::
    (match d.completed with
     | some b => [("completed", Json.bool b)]
     | none => []))

/-- bson decoding of a stored document into the Task struct: an absent
completed field leaves the Go zero value false. -/
def decodeStored (d : StoredDoc) : Task :=
  { id := d.id, title := d.title, completed := d.completed.getD false }

/-- throwError: respond with the given status and the error message. -/
def ginError (status : Nat) (msg : String) : HttpResponse :=
  { status := status, body := Json.obj [("error", Json.str msg)] }

/-- A response carrying only a message field. -/
def ginMessage (status : Nat) (msg : String) : HttpResponse :=
  { status := status, body := Json.obj [("message", Json.str msg)] }

/-- InsertOne of the marshalled Task: the _id field is omitted when the
struct id is the zero value (omitempty), in which case the store assigns
newId; completed is omitted when false. Inserting a duplicate _id is a
store error (unique index on _id). -/
def insertOne (st : Store) (t : Task) (newId : ObjectID) : Except String Store :=
  let docId := if t.id = zeroOID then newId else t.id
  if st.any (fun d => d.id = docId) then Except.error "duplicate key error"
  else Except.ok (st ++
    [{ id := docId
       title := t.title
       completed := if t.completed then some true else none }])

/-- CreateTask handler (POST /tasks). body is none when BindJSON fails. -/
def createTask (body : Option Task) (newId : ObjectID) (st : Store) :
    HttpResponse × Store :=
  match body with
  | none => (ginError 400 "invalid json", st)
  | some task =>
    if task.title = "" then (ginMessage 422 "Title cannot be empty", st)
    else if task.title.utf8ByteSize < 5 then
      (ginMessage 422 "Title length must be at least 5", st)
    else
      let task2 : Task := { task with completed := false }
      match insertOne st task2 newId with
      | Except.error e => (ginError 500 e, st)
      | Except.ok st2 =>
        ({ status := 201, body := Json.obj [("message", Json.str "Task created"),
          ("task", taskToJson task2)] }, st2)

/-- GetTasks handler (GET /tasks): all documents decoded as raw bson.M. -/
def getTasks (st : Store) : HttpResponse :=
  { status := 200, body := Json.obj [("tasks", Json.arr (st.map storedDocToJson))] }

/-- GetSpecificTask handler (GET /tasks/:id). A FindOne miss surfaces as
the driver error, which the handler maps to a 500. -/
def getSpecificTask (idParam : String) (st : Store) : HttpResponse :=
  match objectIDFromHex idParam with
  | Except.error e => ginError 400 e
  | Except.ok oid =>
    match st.find? (fun d => d.id = oid) with
    | none => ginError 500 "mongo: no documents in result"
    | some d => { status := 200, body := Json.obj [("task", taskToJson (decodeStored d))] }

/-- Apply the marshalled set document of a Task to a stored document:
title always set; completed set only when true (omitempty drops false);
the id is not touched here (the conflicting case errors in updateOne). -/
def setFields (d : StoredDoc) (t : Task) : StoredDoc :=
  { d with
    title := t.title
    completed := if t.completed then some true else d.completed }

/-- UpdateOne with filter _id = oid and update set to the marshalled Task:
updates the first matching document, returning the matched count. A set
document carrying an _id different from the matched document is a write
error (_id is immutable); an equal _id is a no-op. -/
def updateOne : Store → ObjectID → Task → Except String (Nat × Store)
  | [], _, _ => Except.ok (0, [])
  | d :: rest, oid, t =>
    if d.id = oid then
      if t.id ≠ zeroOID ∧ t.id ≠ d.id then
        Except.error "write error: the _id field is immutable"
      else Except.ok (1, setFields d t :: rest)
    else
      match updateOne rest oid t with
      | Except.error e => Except.error e
      | Except.ok (n, rest2) => Except.ok (n, d :: rest2)

/-- UpdateTask handler (PUT /tasks/:id). On a body decode failure the
handler passes http.StatusInternalServerError to throwError, but BindJSON
is MustBindWith: it has already aborted with StatusBadRequest and written
the 400 header to the wire, so gin keeps 400 and only the JSON error body
from throwError is appended; the observable status is 400. -/
def updateTask (idParam : String) (body : Option Task) (st : Store) :
    HttpResponse × Store :=
  match objectIDFromHex idParam with
  | Except.error e => (ginError 400 e, st)
  | Except.ok oid =>
    match body with
    | none => (ginError 400 "invalid request body", st)
    | some task =>
      if task.title = "" then (ginMessage 422 "Title cannot be empty", st)
      else if task.title.utf8ByteSize < 5 then
        (ginMessage 422 "Title length must be at least 5", st)
      else
        match updateOne st oid task with
        | Except.error e => (ginError 500 e, st)
        | Except.ok (matched, st2) =>
          if matched = 0 then (ginMessage 404 "Task not found", st)
          else (ginMessage 200 "Task updated", st2)

/-- DeleteOne with filter _id = oid: removes the first matching document,
returning the deleted count. -/
def deleteOne : Store → ObjectID → Nat × Store
  | [], _ => (0, [])
  | d :: rest, oid =>
    if d.id = oid then (1, rest)
    else
      let p := deleteOne rest oid
      (p.1, d :: p.2)

/-- DeleteTask handler (DELETE /tasks/:id). -/
def deleteTask (idParam : String) (st : Store) : HttpResponse × Store :=
  match objectIDFromHex idParam with
  | Except.error e => (ginError 400 e, st)
  | Except.ok oid =>
    let p := deleteOne st oid
    if p.1 = 0 then (ginMessage 404 "Task not found", st)
    else (ginMessage 200 "Task deleted", p.2)

/-- One inbound request, as the handlers see it after routing and decoding. -/
inductive Op where
  | create (body : Option Task) (newId : ObjectID)
  | list
  | get (idParam : String)
  | update (idParam : String) (body : Option Task)
  | delete (idParam : String)
deriving DecidableEq, Repr

/-- Store transition of one request. -/
def step (st : Store) : Op → Store
  | Op.create body newId => (createTask body newId st).2
  | Op.list => st
  | Op.get _ => st
  | Op.update idParam body => (updateTask idParam body st).2
  | Op.delete idParam => (deleteTask idParam st).2

/-- Run a request sequence from the empty store. -/
def run (ops : List Op) : Store := ops.foldl step []

/-- Environment well-formedness of a request: any id the store generates for
an insert is a valid non-zero ObjectID, and any id carried by a decoded
body is a valid ObjectID (JSON decoding of primitive.ObjectID enforces
the 24-hex format). -/
def opWF : Op → Bool
  | Op.create body newId =>
    validOIDb newId && !(newId == zeroOID) &&
      (match body with | some t => validOIDb t.id | none => true)
  | Op.update _ body =>
    (match body with | some t => validOIDb t.id | none => true)
  | _ => true

/-- Invariant of a stored document: a valid non-zero id, a title of at
least 5 bytes, and a completed field that is absent or true. -/
def docInv (d : StoredDoc) : Prop :=
  validOIDb d.id = true ∧ d.id ≠ zeroOID ∧ 5 ≤ d.title.utf8ByteSize ∧
    (d.completed = none ∨ d.completed = some true)

/-- Invariant of the whole store. -/
def storeInv (st : Store) : Prop := ∀ d ∈ st, docInv d

/-- Environment map for os.Getenv: absent variables read as the empty string. -/
def getenv (env : List (String × String)) (k : String) : String :=
  (env.lookup k).getD ""

/-- SetUpDatabase: requires MONGO_URI to be set, then connects and pings;
the connect and ping outcomes are parameters of the model. -/
def setUpDatabase (env : List (String × String))
    (connect ping : Except String Unit) : Except String Unit :=
  if getenv env "MONGO_URI" = "" then Except.error "MONGO_URI not set"
  else
    match connect with
    | Except.error e => Except.error e
    | Except.ok _ =>
      match ping with
      | Except.error e => Except.error e
      | Except.ok _ => Except.ok ()

/-- Observable startup outcome of main: what error was printed, whether
SetupRoutes ran, whether the HTTP server was started. -/
structure StartupOutcome where
  printedError : Option String
  routesRegistered : Bool
  serving : Bool
deriving DecidableEq, Repr

/-- main up to serving: on a SetUpDatabase error, print it and return before
SetupRoutes and router.Run; otherwise register routes and serve. -/
def mainStartup (env : List (String × String))
    (connect ping : Except String Unit) : StartupOutcome :=
  match setUpDatabase env connect ping with
  | Except.error e => { printedError := some e, routesRegistered := false, serving := false }
  | Except.ok _ => { printedError := none, routesRegistered := true, serving := true }

end TaskApi

namespace TaskApi

/-! Helper lemmas shared by the claim theorems. -/

/-- A title of at least 5 bytes is non-empty. -/
theorem title_ne_of_len {t : Task} (h : 5 ≤ t.title.utf8ByteSize) : t.title ≠ "" := by
  intro e
  rw [e] at h
  exact absurd h (by decide)

/-- A valid ObjectID hex string is non-empty. -/
theorem validOIDb_ne_empty {s : String} (h : validOIDb s = true) : s ≠ "" := by
  intro e
  rw [e] at h
  exact absurd h (by decide)

/-- C1: a create request that decodes with a title of at least 5 bytes, an
absent (zero) id, and a fresh store-assigned id responds 201, and the task
in the response carries completed = false regardless of the submitted
completed value. -/
theorem createTask_forces_completed_false (task : Task) (st : Store) (newId : ObjectID)
    (hlen : 5 ≤ task.title.utf8ByteSize) (hid : task.id = zeroOID)
    (hfresh : st.any (fun d => d.id = newId) = false) :
    (createTask (some task) newId st).1.status = 201 ∧
    (createTask (some task) newId st).1.body.getField "task" =
      some (taskToJson { task with completed := false }) ∧
    (taskToJson { task with completed := false }).getField "completed" =
      some (Json.bool false) := by
  have hne : task.title ≠ "" := title_ne_of_len hlen
  have hnl : ¬ task.title.utf8ByteSize < 5 := Nat.not_lt.mpr hlen
  have hr : createTask (some task) newId st =
      ({ status := 201, body := Json.obj [("message", Json.str "Task created"),
        ("task", taskToJson { task with completed := false })] },
        st ++ [{ id := newId, title := task.title, completed := none }]) := by
    simp [createTask, insertOne, hne, hnl, hid, hfresh]
  rw [hr]
  exact ⟨rfl, rfl, rfl⟩

/-- C1 witness: the concrete request with title Buy milk and completed true. -/
theorem createTask_forces_completed_false_witness :
    5 ≤ String.utf8ByteSize "Buy milk" ∧
    ({ id := zeroOID, title := "Buy milk", completed := true } : Task).id = zeroOID ∧
    List.any ([] : Store) (fun d => d.id = "5f1e000000000000000000ab") = false ∧
    (createTask (some { id := zeroOID, title := "Buy milk", completed := true })
      "5f1e000000000000000000ab" []).1.status = 201 :=
  ⟨by decide, by decide, by decide,
    (createTask_forces_completed_false
      { id := zeroOID, title := "Buy milk", completed := true } []
      "5f1e000000000000000000ab" (by decide) (by decide) (by decide)).1⟩

/-- C2: on a well-formed id that matches no record, update and delete respond
404, but get-by-id maps the FindOne miss to a 500 server error, not 404. -/
theorem getSpecificTask_miss_is_500 :
    (getSpecificTask "aaaaaaaaaaaaaaaaaaaaaaaa" []).status = 500 ∧
    (getSpecificTask "aaaaaaaaaaaaaaaaaaaaaaaa" []).status ≠ 404 ∧
    (updateTask "aaaaaaaaaaaaaaaaaaaaaaaa"
      (some { id := zeroOID, title := "Valid title", completed := false }) []).1.status = 404 ∧
    (deleteTask "aaaaaaaaaaaaaaaaaaaaaaaa" []).1.status = 404 :=
  ⟨rfl, by decide, rfl, rfl⟩

/-- C3: the 201 response serializes the request struct whose InsertOne result
was discarded: its id is the zero ObjectID, while the stored record carries
the store-assigned id, and the two differ. -/
theorem createTask_discards_assigned_id :
    (createTask (some { id := zeroOID, title := "Buy milk", completed := false })
        "5f1e000000000000000000ab" []).1.body.getField "task" =
      some (Json.obj [("id", Json.str "000000000000000000000000"),
        ("title", Json.str "Buy milk"), ("completed", Json.bool false)]) ∧
    (createTask (some { id := zeroOID, title := "Buy milk", completed := false })
        "5f1e000000000000000000ab" []).2.map (fun d => d.id) =
      ["5f1e000000000000000000ab"] ∧
    ("000000000000000000000000" : String) ≠ "5f1e000000000000000000ab" :=
  ⟨rfl, rfl, by decide⟩

/-- C6: a PUT with a well-formed id and a body that fails to decode responds
with the bad-request status 400, not a server error, and leaves the store
untouched. -/
theorem updateTask_malformed_body_400 (idParam : String) (st : Store)
    (hid : validOIDb idParam = true) :
    (updateTask idParam none st).1.status = 400 ∧
    (updateTask idParam none st).1.status ≠ 500 ∧
    (updateTask idParam none st).2 = st := by
  have hp : objectIDFromHex idParam = Except.ok (lowerHex idParam) := by
    simp [objectIDFromHex, hid]
  refine ⟨?_, ?_, ?_⟩ <;> simp [updateTask, hp, ginError]

/-- C6 witness: a malformed body against a well-formed id on the empty store. -/
theorem updateTask_malformed_body_400_witness :
    validOIDb "aaaaaaaaaaaaaaaaaaaaaaaa" = true ∧
    (updateTask "aaaaaaaaaaaaaaaaaaaaaaaa" none []).1.status = 400 :=
  ⟨by decide,
    (updateTask_malformed_body_400 "aaaaaaaaaaaaaaaaaaaaaaaa" [] (by decide)).1⟩

/-- C10: when MONGO_URI is absent from the environment, SetUpDatabase returns
the error MONGO_URI not set and main prints it and returns before
registering routes or serving. -/
theorem missing_uri_refuses_to_serve (env : List (String × String))
    (connect ping : Except String Unit) (h : env.lookup "MONGO_URI" = none) :
    setUpDatabase env connect ping = Except.error "MONGO_URI not set" ∧
    mainStartup env connect ping =
      { printedError := some "MONGO_URI not set", routesRegistered := false,
        serving := false } := by
  have hg : getenv env "MONGO_URI" = "" := by simp [getenv, h]
  constructor
  · simp [setUpDatabase, hg]
  · simp [mainStartup, setUpDatabase, hg]

/-- C10 witness: an environment without MONGO_URI. -/
theorem missing_uri_refuses_to_serve_witness :
    ([("PATH", "/usr/bin")] : List (String × String)).lookup "MONGO_URI" = none ∧
    mainStartup [("PATH", "/usr/bin")] (Except.ok ()) (Except.ok ()) =
      { printedError := some "MONGO_URI not set", routesRegistered := false,
        serving := false } :=
  ⟨by decide,
    (missing_uri_refuses_to_serve [("PATH", "/usr/bin")]
      (Except.ok ()) (Except.ok ()) (by decide)).2⟩

end TaskApi

namespace TaskApi

/-- UpdateOne on a store split around the first match: with no conflicting
body id, it sets the fields of the matched document and touches nothing
else, reporting matched count 1. -/
theorem updateOne_append_ok (pre post : Store) (d : StoredDoc) (t : Task)
    (oid : ObjectID) (hd : d.id = oid) (hpre : ∀ e ∈ pre, e.id ≠ oid)
    (htid : t.id = zeroOID) :
    updateOne (pre ++ d :: post) oid t = Except.ok (1, pre ++ setFields d t :: post) := by
  induction pre with
  | nil =>
    simp only [List.nil_append, updateOne, if_pos hd]
    rw [if_neg]
    intro hc
    exact hc.1 htid
  | cons e pre ih =>
    have he : e.id ≠ oid := hpre e (List.mem_cons_self e pre)
    have hrest : ∀ x ∈ pre, x.id ≠ oid := fun x hx => hpre x (List.mem_cons_of_mem e hx)
    simp only [List.cons_append, updateOne, if_neg he, List.append_eq, ih hrest]

/-- C4: a create or update request whose decoded title is empty gets a 422
with message Title cannot be empty; one whose title is shorter than 5 bytes
gets a 422 with message Title length must be at least 5; in all four cases
the store is returned unchanged, so nothing is inserted or modified. -/
theorem title_invalid_422_store_unchanged (t : Task) (st : Store) (newId : ObjectID)
    (idParam : String) (hid : validOIDb idParam = true) :
    (t.title = "" →
      createTask (some t) newId st = (ginMessage 422 "Title cannot be empty", st) ∧
      updateTask idParam (some t) st = (ginMessage 422 "Title cannot be empty", st)) ∧
    (t.title ≠ "" → t.title.utf8ByteSize < 5 →
      createTask (some t) newId st = (ginMessage 422 "Title length must be at least 5", st) ∧
      updateTask idParam (some t) st = (ginMessage 422 "Title length must be at least 5", st)) := by
  constructor
  · intro he
    constructor
    · simp [createTask, he]
    · simp [updateTask, objectIDFromHex, hid, he]
  · intro hne hlt
    constructor
    · simp [createTask, hne, hlt]
    · simp [updateTask, objectIDFromHex, hid, hne, hlt]

/-- C4 witness: an update and create with title ab against a well-formed id. -/
theorem title_invalid_422_store_unchanged_witness :
    validOIDb "aaaaaaaaaaaaaaaaaaaaaaaa" = true ∧
    (updateTask "aaaaaaaaaaaaaaaaaaaaaaaa"
      (some { id := zeroOID, title := "ab", completed := false }) [] =
      (ginMessage 422 "Title length must be at least 5", [])) :=
  ⟨by decide,
    ((title_invalid_422_store_unchanged
      { id := zeroOID, title := "ab", completed := false } [] zeroOID
      "aaaaaaaaaaaaaaaaaaaaaaaa" (by decide)).2 (by decide) (by decide)).2⟩

/-- C5 counterexample: updating an existing task with completed = false
responds 200 but the stored document keeps completed = true, because
omitempty drops the false value from the set document. -/
theorem update_completed_false_not_persisted :
    (updateTask "aaaaaaaaaaaaaaaaaaaaaaaa"
        (some { id := zeroOID, title := "Fresh title", completed := false })
        [{ id := "aaaaaaaaaaaaaaaaaaaaaaaa", title := "Old task title",
           completed := some true }]).1 = ginMessage 200 "Task updated" ∧
    (updateTask "aaaaaaaaaaaaaaaaaaaaaaaa"
        (some { id := zeroOID, title := "Fresh title", completed := false })
        [{ id := "aaaaaaaaaaaaaaaaaaaaaaaa", title := "Old task title",
           completed := some true }]).2 =
      [{ id := "aaaaaaaaaaaaaaaaaaaaaaaa", title := "Fresh title",
         completed := some true }] :=
  ⟨rfl, rfl⟩

/-- C5 amended: a validated update on an existing record is a partial set
built by omitempty marshalling: only the matched document changes, its id
is preserved, its title is overwritten, and its completed field is
overwritten only when the submitted value is true; a submitted false is
dropped and the stored value kept. -/
theorem updateTask_set_marshalled_fields (pre post : Store) (d : StoredDoc) (t : Task)
    (idParam : String) (hid : objectIDFromHex idParam = Except.ok d.id)
    (hpre : ∀ e ∈ pre, e.id ≠ d.id) (htid : t.id = zeroOID)
    (hne : t.title ≠ "") (hlen : ¬ t.title.utf8ByteSize < 5) :
    updateTask idParam (some t) (pre ++ d :: post) =
      (ginMessage 200 "Task updated",
        pre ++ { d with
          title := t.title
          completed := if t.completed then some true else d.completed } :: post) := by
  have hu := updateOne_append_ok pre post d t d.id rfl hpre htid
  simp only [updateTask, hid, if_neg hne, if_neg hlen, hu]
  simp [setFields]

/-- A sample stored document with no completed field. -/
def docA : StoredDoc := { id := "aaaaaaaaaaaaaaaaaaaaaaaa", title := "Other title", completed := none }

/-- A sample stored document with completed = false persisted. -/
def docB : StoredDoc := { id := "bbbbbbbbbbbbbbbbbbbbbbbb", title := "Old task title", completed := some false }

/-- A sample validated update body with completed = true and no id. -/
def tFresh : Task := { id := zeroOID, title := "Fresh title", completed := true }

/-- C5 witness: updating the second of two stored tasks with a true
completed value. -/
theorem updateTask_set_marshalled_fields_witness :
    objectIDFromHex "bbbbbbbbbbbbbbbbbbbbbbbb" = Except.ok docB.id ∧
    updateTask "bbbbbbbbbbbbbbbbbbbbbbbb" (some tFresh) ([docA] ++ docB :: []) =
      (ginMessage 200 "Task updated",
        [docA] ++ { docB with
          title := tFresh.title
          completed := if tFresh.completed then some true else docB.completed } :: []) :=
  ⟨rfl,
    updateTask_set_marshalled_fields [docA] [] docB tFresh
      "bbbbbbbbbbbbbbbbbbbbbbbb" rfl (by decide) rfl (by decide) (by decide)⟩

end TaskApi

namespace TaskApi

/-- DeleteOne on a store with no matching document deletes nothing. -/
theorem deleteOne_no_match (st : Store) (oid : ObjectID)
    (h : ∀ d ∈ st, d.id ≠ oid) : deleteOne st oid = (0, st) := by
  induction st with
  | nil => rfl
  | cons d rest ih =>
    have hd : d.id ≠ oid := h d (List.mem_cons_self d rest)
    have hr := ih (fun x hx => h x (List.mem_cons_of_mem d hx))
    simp only [deleteOne, if_neg hd, hr]

/-- DeleteOne on a store holding exactly one matching document reports
deleted count 1 and leaves no matching document behind. -/
theorem deleteOne_single_match (st : Store) (oid : ObjectID)
    (h : st.countP (fun d => d.id = oid) = 1) :
    (deleteOne st oid).1 = 1 ∧ ∀ d ∈ (deleteOne st oid).2, d.id ≠ oid := by
  induction st with
  | nil => simp [List.countP_nil] at h
  | cons d rest ih =>
    rw [List.countP_cons] at h
    by_cases hd : d.id = oid
    · rw [if_pos (by simpa using hd)] at h
      have hz : rest.countP (fun x => decide (x.id = oid)) = 0 := by omega
      have hnone : ∀ x ∈ rest, x.id ≠ oid := by
        intro x hx he
        exact (List.countP_eq_zero.mp hz x hx) (by simpa using he)
      constructor
      · simp [deleteOne, if_pos hd]
      · intro x hx
        have hsnd : (deleteOne (d :: rest) oid).2 = rest := by
          simp [deleteOne, if_pos hd]
        rw [hsnd] at hx
        exact hnone x hx
    · rw [if_neg (by simpa using hd)] at h
      have hone : rest.countP (fun x => decide (x.id = oid)) = 1 := by omega
      have hrec := ih hone
      constructor
      · simp only [deleteOne, if_neg hd]
        exact hrec.1
      · intro x hx
        simp only [deleteOne, if_neg hd] at hx
        rcases List.mem_cons.mp hx with he | hm
        · rw [he]; exact hd
        · exact hrec.2 x hm

/-- C7: deleting a well-formed id held by exactly one stored document
responds 200 Task deleted, and an immediate second delete of the same id
responds 404 Task not found. -/
theorem deleteTask_twice_200_then_404 (st : Store) (idParam : String)
    (hid : validOIDb idParam = true)
    (hone : st.countP (fun d => d.id = lowerHex idParam) = 1) :
    (deleteTask idParam st).1 = ginMessage 200 "Task deleted" ∧
    (deleteTask idParam (deleteTask idParam st).2).1 =
      ginMessage 404 "Task not found" := by
  have hp : objectIDFromHex idParam = Except.ok (lowerHex idParam) := by
    simp [objectIDFromHex, hid]
  have h1 := deleteOne_single_match st (lowerHex idParam) hone
  have hsnd : (deleteTask idParam st).2 = (deleteOne st (lowerHex idParam)).2 := by
    simp only [deleteTask, hp]
    rw [h1.1]
    simp
  have h2 := deleteOne_no_match (deleteOne st (lowerHex idParam)).2
    (lowerHex idParam) h1.2
  constructor
  · simp only [deleteTask, hp]
    rw [h1.1]
    simp
  · rw [hsnd]
    simp only [deleteTask, hp, h2]
    simp

/-- C7 witness: one stored task, deleted twice. -/
theorem deleteTask_twice_200_then_404_witness :
    validOIDb "aaaaaaaaaaaaaaaaaaaaaaaa" = true ∧
    List.countP (fun d => d.id = lowerHex "aaaaaaaaaaaaaaaaaaaaaaaa") [docA] = 1 ∧
    (deleteTask "aaaaaaaaaaaaaaaaaaaaaaaa" [docA]).1 = ginMessage 200 "Task deleted" :=
  ⟨by decide, by decide,
    (deleteTask_twice_200_then_404 [docA] "aaaaaaaaaaaaaaaaaaaaaaaa"
      (by decide) (by decide)).1⟩

/-- A sample stored document created by the handler: no completed field. -/
def docMilk : StoredDoc := { id := "cccccccccccccccccccccccc", title := "Buy milk", completed := none }

/-- C9 counterexample: the list response wraps raw store documents; the
element for a stored task has key _id and no id key, and when the stored
completed field is absent it has no completed key either, so it is not in
the Task JSON shape. -/
theorem getTasks_element_not_task_shape :
    (getTasks [docMilk]).status = 200 ∧
    (getTasks [docMilk]).body.getField "tasks" =
      some (Json.arr [Json.obj [("_id", Json.str "cccccccccccccccccccccccc"),
        ("title", Json.str "Buy milk")]]) ∧
    (storedDocToJson docMilk).getField "id" = none ∧
    (storedDocToJson docMilk).getField "completed" = none :=
  ⟨rfl, rfl, rfl, rfl⟩

/-- C9 amended: a list request responds 200 and wraps the complete set of
stored documents under the key tasks, each element rendered as the raw
stored document with an _id key carrying the id hex string and a title
key carrying the title; completed appears only when the stored field is
present, and the elements are not reshaped into the Task JSON form. -/
theorem getTasks_returns_all_raw (st : Store) :
    (getTasks st).status = 200 ∧
    (getTasks st).body.getField "tasks" = some (Json.arr (st.map storedDocToJson)) ∧
    ∀ d ∈ st, (storedDocToJson d).getField "_id" = some (Json.str d.id) ∧
      (storedDocToJson d).getField "title" = some (Json.str d.title) :=
  ⟨rfl, rfl, fun _ _ => ⟨rfl, rfl⟩⟩

/-- C9 witness: the singleton store. -/
theorem getTasks_returns_all_raw_witness :
    docMilk ∈ [docMilk] ∧
    (storedDocToJson docMilk).getField "_id" = some (Json.str docMilk.id) :=
  ⟨by decide, ((getTasks_returns_all_raw [docMilk]).2.2 docMilk (by decide)).1⟩

end TaskApi

namespace TaskApi

/-- A successful InsertOne of a validated, completed-forced-false Task with a
valid fresh id yields a store of invariant-respecting documents. -/
theorem insertOne_inv (st : Store) (t : Task) (newId : ObjectID)
    (hnew : validOIDb newId = true) (hnz : newId ≠ zeroOID)
    (htid : validOIDb t.id = true) (hlen : 5 ≤ t.title.utf8ByteSize)
    (hc : t.completed = false) (hinv : storeInv st) :
    ∀ st2, insertOne st t newId = Except.ok st2 → storeInv st2 := by
  intro st2 h
  simp only [insertOne] at h
  by_cases hdup : st.any (fun d => d.id = if t.id = zeroOID then newId else t.id)
  · rw [if_pos hdup] at h
    simp at h
  · rw [if_neg hdup] at h
    cases h
    intro x hx
    rcases List.mem_append.mp hx with hm | hm
    · exact hinv x hm
    · have hx2 := List.mem_singleton.mp hm
      rw [hx2]
      refine ⟨?_, ?_, ?_, ?_⟩
      · by_cases hz : t.id = zeroOID
        · simpa [hz] using hnew
        · simpa [hz] using htid
      · by_cases hz : t.id = zeroOID
        · simpa [hz] using hnz
        · simp [hz]
      · exact hlen
      · left
        simp [hc]

/-- A successful UpdateOne with a validated title maps an
invariant-respecting store to an invariant-respecting store. -/
theorem updateOne_ok_inv (oid : ObjectID) (t : Task)
    (hlen : 5 ≤ t.title.utf8ByteSize) :
    ∀ (st : Store), storeInv st → ∀ res, updateOne st oid t = Except.ok res →
      storeInv res.2 := by
  intro st
  induction st with
  | nil =>
    intro _ res h
    simp only [updateOne] at h
    cases h
    intro x hx
    exact absurd hx (List.not_mem_nil x)
  | cons d rest ih =>
    intro hinv res h
    have hd_inv : docInv d := hinv d (List.mem_cons_self d rest)
    have hrest_inv : storeInv rest := fun x hx => hinv x (List.mem_cons_of_mem d hx)
    by_cases hd : d.id = oid
    · by_cases hc : t.id ≠ zeroOID ∧ t.id ≠ d.id
      · simp only [updateOne, if_pos hd, if_pos hc] at h
        simp at h
      · simp only [updateOne, if_pos hd, if_neg hc] at h
        cases h
        intro x hx
        rcases List.mem_cons.mp hx with he | hm
        · rw [he]
          refine ⟨hd_inv.1, hd_inv.2.1, ?_, ?_⟩
          · exact hlen
          · by_cases hb : t.completed
            · right
              simp [setFields, hb]
            · have := hd_inv.2.2.2
              simpa [setFields, hb] using this
        · exact hrest_inv x hm
    · simp only [updateOne, if_neg hd] at h
      cases hu : updateOne rest oid t with
      | error e =>
        rw [hu] at h
        simp at h
      | ok p =>
        obtain ⟨n, rest2⟩ := p
        rw [hu] at h
        simp only [] at h
        cases h
        intro x hx
        rcases List.mem_cons.mp hx with he | hm
        · rw [he]
          exact hd_inv
        · exact ih hrest_inv (n, rest2) hu x hm

/-- Every document surviving a DeleteOne was in the store before. -/
theorem deleteOne_mem_subset (oid : ObjectID) :
    ∀ (st : Store) (x : StoredDoc), x ∈ (deleteOne st oid).2 → x ∈ st := by
  intro st
  induction st with
  | nil =>
    intro x hx
    simp [deleteOne] at hx
  | cons d rest ih =>
    intro x hx
    by_cases hd : d.id = oid
    · simp only [deleteOne, if_pos hd] at hx
      exact List.mem_cons_of_mem d hx
    · simp only [deleteOne, if_neg hd] at hx
      rcases List.mem_cons.mp hx with he | hm
      · rw [he]
        exact List.mem_cons_self d rest
      · exact List.mem_cons_of_mem d (ih x hm)

/-- One handler step on a well-formed request preserves the store invariant. -/
theorem step_inv (st : Store) (op : Op) (hop : opWF op = true)
    (hinv : storeInv st) : storeInv (step st op) := by
  cases op with
  | create body newId =>
    cases body with
    | none => exact hinv
    | some t =>
      simp only [opWF, Bool.and_eq_true, Bool.not_eq_true', beq_eq_false_iff_ne] at hop
      obtain ⟨⟨h1, h2⟩, h3⟩ := hop
      by_cases he : t.title = ""
      · simp only [step, createTask, if_pos he]
        exact hinv
      · by_cases hlt : t.title.utf8ByteSize < 5
        · simp only [step, createTask, if_neg he, if_pos hlt]
          exact hinv
        · cases hins : insertOne st { t with completed := false } newId with
          | error e =>
            simp only [step, createTask, if_neg he, if_neg hlt, hins]
            exact hinv
          | ok st2 =>
            simp only [step, createTask, if_neg he, if_neg hlt, hins]
            exact insertOne_inv st { t with completed := false } newId h1 h2 h3
              (Nat.le_of_not_lt hlt) rfl hinv st2 hins
  | list => exact hinv
  | get idParam => exact hinv
  | update idParam body =>
    cases hp : objectIDFromHex idParam with
    | error e =>
      cases body with
      | none => simp only [step, updateTask, hp]; exact hinv
      | some t => simp only [step, updateTask, hp]; exact hinv
    | ok oid =>
      cases body with
      | none =>
        simp only [step, updateTask, hp]
        exact hinv
      | some t =>
        by_cases he : t.title = ""
        · simp only [step, updateTask, hp, if_pos he]
          exact hinv
        · by_cases hlt : t.title.utf8ByteSize < 5
          · simp only [step, updateTask, hp, if_neg he, if_pos hlt]
            exact hinv
          · cases hu : updateOne st oid t with
            | error e =>
              simp only [step, updateTask, hp, if_neg he, if_neg hlt, hu]
              exact hinv
            | ok res =>
              obtain ⟨n, st2⟩ := res
              simp only [step, updateTask, hp, if_neg he, if_neg hlt, hu]
              by_cases hn : n = 0
              · simp only [if_pos hn]
                exact hinv
              · simp only [if_neg hn]
                exact updateOne_ok_inv oid t (Nat.le_of_not_lt hlt) st hinv (n, st2) hu
  | delete idParam =>
    cases hp : objectIDFromHex idParam with
    | error e =>
      simp only [step, deleteTask, hp]
      exact hinv
    | ok oid =>
      by_cases hz : (deleteOne st oid).1 = 0
      · simp only [step, deleteTask, hp, if_pos hz]
        exact hinv
      · simp only [step, deleteTask, hp, if_neg hz]
        intro x hx
        exact hinv x (deleteOne_mem_subset oid st x hx)

/-- Folding well-formed requests preserves the store invariant. -/
theorem foldl_step_inv : ∀ (ops : List Op) (st : Store),
    (∀ op ∈ ops, opWF op = true) → storeInv st → storeInv (ops.foldl step st) := by
  intro ops
  induction ops with
  | nil =>
    intro st _ hinv
    exact hinv
  | cons op rest ih =>
    intro st hops hinv
    have h1 := hops op (List.mem_cons_self op rest)
    exact ih (step st op) (fun x hx => hops x (List.mem_cons_of_mem op hx))
      (step_inv st op h1 hinv)

/-- The create request for the Buy milk task with a fresh store id. -/
def createMilkOp : Op :=
  Op.create (some { id := zeroOID, title := "Buy milk", completed := false }) "5f1e000000000000000000ab"

/-- The document that create request persists. -/
def docInserted : StoredDoc :=
  { id := "5f1e000000000000000000ab", title := "Buy milk", completed := none }

/-- C8 counterexample: after one successful create from the empty store the
persisted document carries no completed field at all: omitempty dropped the
forced false, so no boolean completed field is present. -/
theorem run_create_no_completed_field :
    run [createMilkOp] = [docInserted] ∧
    docInserted.completed = none ∧
    (storedDocToJson docInserted).getField "completed" = none :=
  ⟨rfl, rfl, rfl⟩

/-- C8 amended: after any sequence of handler requests from the empty store,
every stored document has a non-empty, valid, non-zero store id and a title
of at least 5 bytes, and its completed field is either absent or true; it
is never persisted as false. -/
theorem run_store_invariant (ops : List Op) (hwf : ∀ op ∈ ops, opWF op = true) :
    ∀ d ∈ run ops, d.id ≠ "" ∧ validOIDb d.id = true ∧ d.id ≠ zeroOID ∧
      5 ≤ d.title.utf8ByteSize ∧ (d.completed = none ∨ d.completed = some true) := by
  have hinv := foldl_step_inv ops [] hwf (fun x hx => absurd hx (List.not_mem_nil x))
  intro d hd
  have h := hinv d hd
  exact ⟨validOIDb_ne_empty h.1, h.1, h.2.1, h.2.2.1, h.2.2.2⟩

/-- A sample request sequence: two creates, an update, a delete. -/
def sampleOps : List Op :=
  [createMilkOp,
    Op.update "5f1e000000000000000000ab" (some { id := zeroOID, title := "Fresh title", completed := true }),
    Op.create (some { id := zeroOID, title := "Second task", completed := true }) "5f1e000000000000000000cd",
    Op.delete "5f1e000000000000000000cd"]

/-- C8 witness: the sample request sequence is well formed and its final
store respects the invariant. -/
theorem run_store_invariant_witness :
    (∀ op ∈ sampleOps, opWF op = true) ∧
    (∀ d ∈ run sampleOps, d.id ≠ "" ∧ validOIDb d.id = true ∧ d.id ≠ zeroOID ∧
      5 ≤ d.title.utf8ByteSize ∧ (d.completed = none ∨ d.completed = some true)) :=
  ⟨by decide, run_store_invariant sampleOps (by decide)⟩

end TaskApi
